import Mathlib

/-!
Verification of the BeHome integration (custom_components/behome) against its
design specification.  The development shallowly embeds the Python source:

* api.py              - BemfaAPI.get_devices / BemfaAPI.control_device
* __init__.py         - SmartDataUpdateCoordinator (optimistic-lock protocol)
* switch.py           - discovery pass, BeHomeSwitch.async_turn_on, is_on
* climate.py          - BeHomeClimate.async_set_preset_mode
* water_heater.py     - discovery pass (no added-id tracking)

Python data (JSON payloads, device records) is modelled by the types Prim and
Value below.  Every payload this integration exchanges is a primitive or a
flat object of primitives (device msg dictionaries, encoded commands), so
Value nests objects exactly one level; deeper JSON documents and float
literals are outside the model.  Wall-clock instants (time.time) are
integers; every claim compares instants linearly against the integer
constants 3, 5 and 8, so the discretization does not change any verdict.
Python functions that can raise are embedded with Except String; the error
string names the Python exception class.
-/

deriving instance DecidableEq for Except

/-- Primitive Python/JSON value: string, integer, boolean or None/null. -/
inductive Prim where
  | pstr (s : String)
  | pint (n : Int)
  | pbool (b : Bool)
  | pnull
deriving DecidableEq, Repr

/-- Python/JSON value: a primitive or a flat object mapping keys to
primitives (the only object shape the integration exchanges). -/
inductive Value where
  | prim (p : Prim)
  | vobj (fields : List (String × Prim))
deriving DecidableEq, Repr

/-- Python dictionary with string keys, as used for device records. -/
abbrev Dict := List (String × Value)

/-- Python d.get(k): first binding of key k, if any. -/
def dictGet (d : Dict) (k : String) : Option Value :=
  (d.find? (fun p => p.1 = k)).map (fun p => p.2)

/-- Python d.get(k) with default None. -/
def pyGet (d : Dict) (k : String) : Value :=
  (dictGet d k).getD (Value.prim Prim.pnull)

/-- Python d[k] = v: replace the binding in place if the key exists,
otherwise append it. -/
def setKey (d : Dict) (k : String) (v : Value) : Dict :=
  if d.any (fun p => p.1 = k) then
    d.map (fun p => if p.1 = k then (k, v) else p)
  else
    d ++ [(k, v)]

/-- Python d.update(u): assign every binding of u into d, left to right. -/
def dictUpdate (d u : Dict) : Dict :=
  u.foldl (fun acc p => setKey acc p.1 p.2) d

/-- Python lookup in a flat object (msg.get(k)). -/
def primGet (m : List (String × Prim)) (k : String) : Option Prim :=
  (m.find? (fun p => p.1 = k)).map (fun p => p.2)

/-- Python comparison device.get("topic") == tp for a string tp: true
exactly when the stored value is the equal string. -/
def topicIs (d : Dict) (tp : String) : Bool :=
  match dictGet d "topic" with
  | some (Value.prim (Prim.pstr s)) => s = tp
  | _ => false

/-- Python d[k]: raises KeyError when the key is absent. -/
def idx (d : Dict) (k : String) : Except String Value :=
  match dictGet d k with
  | some v => Except.ok v
  | none => Except.error "KeyError"

section Coordinator

/-- Timing constant from __init__.py line 53: device states are locked for
5 seconds after an optimistic update. -/
def deviceLockDuration : Int := 5

/-- Timing constant from __init__.py line 51: refreshes within 8 seconds of
a manual refresh are skipped. -/
def manualRefreshCooldown : Int := 8

/-- State of SmartDataUpdateCoordinator: the cached device list (None before
the first refresh), the override map (topic to lock end time) and the time
of the last manual refresh. -/
structure CoordState where
  data : Option (List Dict)
  lockedDevices : List (String × Int)
  lastManualRefresh : Int
deriving DecidableEq, Repr

/-- Python truthiness of coordinator.data: a non-None, non-empty list. -/
def dataTruthy : Option (List Dict) → Bool
  | none => false
  | some l => !l.isEmpty

/-- Dictionary assignment self._locked_devices[topic] = t. -/
def setLock (locks : List (String × Int)) (tp : String) (t : Int) :
    List (String × Int) :=
  if locks.any (fun p => p.1 = tp) then
    locks.map (fun p => if p.1 = tp then (tp, t) else p)
  else
    locks ++ [(tp, t)]

/-- Python membership test topic in self._locked_devices. -/
def lockHasKey (locks : List (String × Int)) (tp : String) : Bool :=
  locks.any (fun p => p.1 = tp)

/-- Loop of update_device_state_immediately (__init__.py lines 64-67): find
the first cached device whose topic field equals the argument and merge the
new state into it. -/
def updateFirst : List Dict → String → Dict → List Dict
  | [], _, _ => []
  | d :: rest, tp, ns =>
    if topicIs d tp then dictUpdate d ns :: rest
    else d :: updateFirst rest tp ns

/-- SmartDataUpdateCoordinator.update_device_state_immediately
(__init__.py lines 55-70).  Returns the new coordinator state and whether
listeners were notified.  When self.data is falsy the method returns at once;
otherwise it locks the topic, merges the new state into the first matching
cached device and notifies listeners. -/
def update_device_state_immediately (s : CoordState) (now : Int)
    (topic : String) (newState : Dict) : CoordState × Bool :=
  match s.data with
  | none => (s, false)
  | some l =>
    if l.isEmpty then (s, false)
    else
      ({ data := some (updateFirst l topic newState),
         lockedDevices := setLock s.lockedDevices topic
           (now + deviceLockDuration),
         lastManualRefresh := s.lastManualRefresh }, true)

/-- Per-device merge of _async_update_data (__init__.py lines 105-108):
device.update with the whole msg of the old cached record and its state
(falling back to the freshly fetched state when the old record has none). -/
def mergeDevice (old fresh : Dict) : Dict :=
  dictUpdate fresh
    [("msg", pyGet old "msg"),
     ("state", (dictGet old "state").getD (pyGet fresh "state"))]

/-- Python next(d for d in data if d.get("topic") == tp), or None. -/
def firstWithTopic (l : List Dict) (tp : String) : Option Dict :=
  l.find? (fun d => topicIs d tp)

/-- Lock sweep of _async_update_data (__init__.py lines 91-94): keep the
entries whose end time is still in the future. -/
def sweepLocks (locks : List (String × Int)) (now : Int) : List (String × Int) :=
  locks.filter (fun p => decide (now < p.2))

/-- Merge loop of _async_update_data (__init__.py lines 98-109): for every
fresh device whose topic is still locked, overwrite its msg and state fields
from the first old cached device with that topic. -/
def mergeData (olds : List Dict) (locks : List (String × Int))
    (fetched : List Dict) : List Dict :=
  fetched.map (fun d =>
    match dictGet d "topic" with
    | some (Value.prim (Prim.pstr tp)) =>
      if lockHasKey locks tp then
        match firstWithTopic olds tp with
        | some old => mergeDevice old d
        | none => d
      else d
    | _ => d)

/-- SmartDataUpdateCoordinator._async_update_data (__init__.py lines 78-111)
together with the base class installing the returned value as self.data.
The fetched argument is the result of BemfaAPI.get_devices, which collapses
every transport or payload error to the empty list. -/
def async_update_data (s : CoordState) (now : Int) (fetched : List Dict) :
    CoordState :=
  if now - s.lastManualRefresh < manualRefreshCooldown then
    s
  else if s.lockedDevices ≠ [] ∧ fetched ≠ [] then
    if dataTruthy s.data ∧ sweepLocks s.lockedDevices now ≠ [] then
      { data := some (mergeData (s.data.getD [])
          (sweepLocks s.lockedDevices now) fetched),
        lockedDevices := sweepLocks s.lockedDevices now,
        lastManualRefresh := s.lastManualRefresh }
    else
      { data := some fetched,
        lockedDevices := sweepLocks s.lockedDevices now,
        lastManualRefresh := s.lastManualRefresh }
  else
    { s with data := some fetched }

/-- Effect of async_request_refresh_after_delay (__init__.py lines 72-76)
once its sleep has elapsed: record the current time as the last manual
refresh.  The refresh it then requests runs async_update_data. -/
def delayed_refresh_fired (s : CoordState) (fireTime : Int) : CoordState :=
  { s with lastManualRefresh := fireTime }

end Coordinator

section BrokerClient

/-- Skip ASCII whitespace characters. -/
def skipWs : List Char → List Char
  | [] => []
  | c :: rest =>
    if c = ' ' ∨ c = '\t' ∨ c = '\n' ∨ c = '\r' then skipWs rest
    else c :: rest

/-- Longest digit run at the head of the input, and the remainder. -/
def takeDigits : List Char → List Char × List Char
  | [] => ([], [])
  | c :: rest =>
    if c.isDigit then
      let r := takeDigits rest
      (c :: r.1, r.2)
    else ([], c :: rest)

/-- Numeric value of a digit run. -/
def digitsVal (l : List Char) : Nat :=
  l.foldl (fun a c => a * 10 + (c.toNat - 48)) 0

/-- Python int(s) on a string: surrounding whitespace stripped, an optional
sign, then at least one digit and nothing else; None models ValueError.
Underscore digit separators are outside the model. -/
def pyInt (s : String) : Option Int :=
  match skipWs s.data with
  | '-' :: rest =>
    let r := takeDigits rest
    if r.1.isEmpty ∨ !(skipWs r.2).isEmpty then none
    else some (-(digitsVal r.1 : Int))
  | '+' :: rest =>
    let r := takeDigits rest
    if r.1.isEmpty ∨ !(skipWs r.2).isEmpty then none
    else some ((digitsVal r.1 : Int))
  | cs =>
    let r := takeDigits cs
    if r.1.isEmpty ∨ !(skipWs r.2).isEmpty then none
    else some ((digitsVal r.1 : Int))

/-- Body of a JSON string literal after the opening quote: the decoded
characters and the remainder after the closing quote.  Escapes are limited
to backslash-quote and backslash-backslash. -/
def parseStrBody : List Char → Option (List Char × List Char)
  | [] => none
  | c :: rest =>
    if c = '"' then some ([], rest)
    else if c = '\\' then
      match rest with
      | [] => none
      | e :: rest2 =>
        if e = '"' ∨ e = '\\' then
          (parseStrBody rest2).map (fun r => (e :: r.1, r.2))
        else none
    else (parseStrBody rest).map (fun r => (c :: r.1, r.2))

/-- One JSON primitive token: null, true, false, a string or an integer. -/
def parsePrimTok (cs : List Char) : Option (Prim × List Char) :=
  if ['n', 'u', 'l', 'l'].isPrefixOf cs then some (Prim.pnull, cs.drop 4)
  else if ['t', 'r', 'u', 'e'].isPrefixOf cs then
    some (Prim.pbool true, cs.drop 4)
  else if ['f', 'a', 'l', 's', 'e'].isPrefixOf cs then
    some (Prim.pbool false, cs.drop 5)
  else
    match cs with
    | '"' :: rest =>
      (parseStrBody rest).map (fun r => (Prim.pstr (String.mk r.1), r.2))
    | '-' :: rest =>
      let r := takeDigits rest
      if r.1.isEmpty then none
      else some (Prim.pint (-(digitsVal r.1 : Int)), r.2)
    | cs' =>
      let r := takeDigits cs'
      if r.1.isEmpty then none
      else some (Prim.pint (digitsVal r.1 : Int), r.2)

/-- Member list of a JSON object after the opening brace, ending at the
closing brace; fuel bounds the recursion by the input length. -/
def parseMembers : Nat → List Char → Option (List (String × Prim) × List Char)
  | 0, _ => none
  | fuel + 1, cs =>
    match skipWs cs with
    | '"' :: rest => do
      let kv ← parseStrBody rest
      match skipWs kv.2 with
      | ':' :: cs3 => do
        let pv ← parsePrimTok (skipWs cs3)
        match skipWs pv.2 with
        | ',' :: cs6 => do
          let ms ← parseMembers fuel cs6
          some ((String.mk kv.1, pv.1) :: ms.1, ms.2)
        | '}' :: cs6 => some ([(String.mk kv.1, pv.1)], cs6)
        | _ => none
      | _ => none
    | _ => none

/-- Model of json.loads for the payload shapes this integration exchanges:
a primitive or a flat object of primitives.  Deeper documents, arrays and
float literals are outside the model and parse as None. -/
def jsonLoads (s : String) : Option Value :=
  match skipWs s.data with
  | '{' :: rest =>
    match skipWs rest with
    | '}' :: tail =>
      if (skipWs tail).isEmpty then some (Value.vobj []) else none
    | _ => do
      let ms ← parseMembers (rest.length + 1) rest
      if (skipWs ms.2).isEmpty then some (Value.vobj ms.1) else none
  | cs => do
    let pv ← parsePrimTok cs
    if (skipWs pv.2).isEmpty then some (Value.prim pv.1) else none

/-- Split a character list at a separator; the final chunk may be empty,
matching Python str.split. -/
def splitChars (sep : Char) : List Char → List (List Char)
  | [] => [[]]
  | c :: rest =>
    if c = sep then [] :: splitChars sep rest
    else
      match splitChars sep rest with
      | [] => [[c]]
      | h :: t => (c :: h) :: t

/-- Python s.split(","), as used by control_device. -/
def pySplitComma (s : String) : List String :=
  (splitChars ',' s.data).map String.mk

/-- Python s.startswith(pre). -/
def pyStartsWith (s pre : String) : Bool :=
  pre.data.isPrefixOf s.data

/-- Mode table of BemfaAPI.control_device (api.py lines 56-59). -/
def modeMap : List (String × Int) :=
  [("auto", 1), ("cool", 2), ("heat", 3), ("fan", 4),
   ("dry", 5), ("sleep", 6), ("eco", 7)]

/-- Python mode_map.get(mode_str, 1). -/
def modeCode (m : String) : Int :=
  ((modeMap.find? (fun p => p.1 = m)).map (fun p => p.2)).getD 1

/-- Command encoding of BemfaAPI.control_device (api.py lines 38-84): the
logical command string becomes the wire message.  An error models the
uncaught ValueError raised by int() on a malformed numeric part. -/
def encodeCommand (message : String) : Except String Value :=
  if message = "on" then Except.ok (Value.vobj [("on", Prim.pbool true)])
  else if message = "off" then
    Except.ok (Value.vobj [("on", Prim.pbool false)])
  else if pyStartsWith message "set," then
    match pyInt ((pySplitComma message).getD 1 "") with
    | none => Except.error "ValueError"
    | some value =>
      if (pySplitComma message).length = 2 then
        Except.ok (Value.vobj [("on", Prim.pbool true), ("bri", Prim.pint value)])
      else if (pySplitComma message).length = 4 then
        Except.ok (Value.vobj
          [("on", Prim.pbool true), ("t", Prim.pint value),
           ("mode", Prim.pint (modeCode ((pySplitComma message).getD 2 "")))])
      else
        Except.ok (Value.vobj [("on", Prim.pbool true), ("v", Prim.pint value)])
  else if pyStartsWith message "speed," then
    match pyInt ((pySplitComma message).getD 1 "") with
    | none => Except.error "ValueError"
    | some speed =>
      Except.ok (Value.vobj [("on", Prim.pbool true), ("v", Prim.pint speed)])
  else
    match jsonLoads message with
    | some v => Except.ok v
    | none =>
      if message = "stop" then Except.ok (Value.vobj [("pause", Prim.pbool true)])
      else if message = "volup" ∨ message = "voldown" ∨ message = "chup" ∨
          message = "chdown" then
        Except.ok (Value.vobj [("command", Prim.pstr message)])
      else Except.ok (Value.vobj [("on", Prim.pbool true)])

/-- Outcome of the POST in control_device: a transport error, a failure to
parse the response, or a payload with a status code. -/
inductive NetResult where
  | transportError
  | responseError
  | code (c : Int)
deriving DecidableEq, Repr

/-- BemfaAPI.control_device (api.py lines 34-104): encode the message, then
POST it; every network or response error is caught and collapses to false,
and the call returns true exactly on a code 0 acknowledgement.  An error
models an exception escaping to the caller. -/
def control_device (message : String) (net : NetResult) :
    Except String Bool :=
  match encodeCommand message with
  | Except.error e => Except.error e
  | Except.ok _ =>
    match net with
    | NetResult.transportError => Except.ok false
    | NetResult.responseError => Except.ok false
    | NetResult.code c => Except.ok (decide (c = 0))

/-- BemfaAPI.get_devices (api.py lines 18-32): one GET; any transport error,
malformed response or non-zero status code collapses to the empty list. -/
def get_devices (net : NetResult) (payload : List Dict) : List Dict :=
  match net with
  | NetResult.transportError => []
  | NetResult.responseError => []
  | NetResult.code c => if c = 0 then payload else []

end BrokerClient

section Adapters

/-- Python next((d for d in data if d["deviceID"] == did), None): scans the
list, raising KeyError when a scanned record lacks the key. -/
def findByDeviceID : List Dict → String → Except String (Option Dict)
  | [], _ => Except.ok none
  | d :: rest, did => do
    let v ← idx d "deviceID"
    if v = Value.prim (Prim.pstr did) then Except.ok (some d)
    else findByDeviceID rest did

/-- Optimistic update of BeHomeSwitch.async_turn_on (switch.py lines
113-116): the adapter passes its deviceID to
update_device_state_immediately together with msg on true. -/
def switch_turn_on_optimistic (s : CoordState) (now : Int)
    (deviceId : String) : CoordState × Bool :=
  update_device_state_immediately s now deviceId
    [("msg", Value.vobj [("on", Prim.pbool true)])]

/-- BeHomeSwitch.is_on (switch.py lines 95-109): find the record by its
deviceID field; a dict msg reads msg.get("on") is True, otherwise compare
msg with the string on. -/
def switch_is_on (data : Option (List Dict)) (deviceId : String) :
    Except String Bool :=
  match data with
  | none => Except.error "TypeError"
  | some devices => do
    let dev ← findByDeviceID devices deviceId
    match dev with
    | none => Except.ok false
    | some d =>
      match dictGet d "msg" with
      | some (Value.vobj m) =>
        Except.ok (primGet m "on" = some (Prim.pbool true))
      | some v => Except.ok (v = Value.prim (Prim.pstr "on"))
      | none => Except.ok false

/-- List comprehension [d for d in devices if d["id"] == typ]; KeyError when
a record lacks the id key. -/
def filterById : List Dict → String → Except String (List Dict)
  | [], _ => Except.ok []
  | d :: rest, typ => do
    let v ← idx d "id"
    let tail ← filterById rest typ
    if v = Value.prim (Prim.pstr typ) then Except.ok (d :: tail)
    else Except.ok tail

/-- Registration loop of the switch discovery pass (switch.py lines 49-58):
create an entity for every device whose deviceID was not seen before,
threading the seen set.  Returns the created entities and the new set. -/
def addNewEntities : List Dict → List Value →
    Except String (List Dict × List Value)
  | [], added => Except.ok ([], added)
  | d :: rest, added => do
    let did ← idx d "deviceID"
    if did ∈ added then addNewEntities rest added
    else do
      let r ← addNewEntities rest (added ++ [did])
      Except.ok (d :: r.1, r.2)

/-- Discovery pass of switch.py (_async_discover_entities, lines 30-61):
split the coordinator data into sockets and switches and instantiate an
adapter for every deviceID not yet seen.  Returns the devices for which new
adapters were created and the updated seen set. -/
def discoverSwitchEntities (data : Option (List Dict))
    (added : List Value) : Except String (List Dict × List Value) :=
  match data with
  | none => Except.ok ([], added)
  | some devices =>
    if devices.isEmpty then Except.ok ([], added)
    else do
      let sockets ← filterById devices "outlet"
      let switches ← filterById devices "switch"
      let r1 ← addNewEntities sockets added
      let r2 ← addNewEntities switches r1.2
      Except.ok (r1.1 ++ r2.1, r2.2)

/-- Discovery pass of water_heater.py (_async_discover_entities, lines
41-57): instantiate a BeHomeWaterHeater for every water-heater device on
every invocation; the pass keeps no record of already-created adapters. -/
def discoverWaterHeaterEntities (data : Option (List Dict)) :
    Except String (List Dict) :=
  match data with
  | none => Except.ok []
  | some devices =>
    if devices.isEmpty then Except.ok []
    else filterById devices "waterheater"

/-- Preset table of climate.py (PRESET_TO_MODE, lines 34-37). -/
def PRESET_TO_MODE : List (String × Int) := [("sleep", 6), ("eco", 7)]

/-- Python PRESET_TO_MODE.get(preset_mode). -/
def presetToMode (preset : String) : Option Int :=
  ((PRESET_TO_MODE.find? (fun p => p.1 = preset)).map (fun p => p.2))

/-- Python truthiness of a primitive (used for msg.get("on")). -/
def truthyPrim : Prim → Bool
  | Prim.pbool b => b
  | Prim.pint n => decide (n ≠ 0)
  | Prim.pstr s => !s.isEmpty
  | Prim.pnull => false

/-- Python float(x) on a primitive; None models ValueError/TypeError.
Decimal strings are outside the model. -/
def pyFloat : Prim → Option ℚ
  | Prim.pint n => some (n : ℚ)
  | Prim.pbool b => some (if b then 1 else 0)
  | Prim.pstr s => (pyInt s).map (fun n => (n : ℚ))
  | Prim.pnull => none

/-- Python int(q) on a float: truncation toward zero. -/
def pyTrunc (q : ℚ) : Int := Int.tdiv q.num (q.den : Int)

/-- BeHomeClimate._current_device_msg (climate.py lines 140-147): the msg of
the record with this deviceID when it is a dict, else an empty dict. -/
def climate_current_device_msg (data : Option (List Dict))
    (deviceId : String) : Except String (List (String × Prim)) :=
  match data with
  | none => Except.error "TypeError"
  | some devices => do
    let dev ← findByDeviceID devices deviceId
    match dev with
    | none => Except.ok []
    | some d =>
      match dictGet d "msg" with
      | some (Value.vobj m) => Except.ok m
      | _ => Except.ok []

/-- BeHomeClimate.target_temperature (climate.py lines 184-193): the float
of msg t when the device is on and t is present, None otherwise or when the
conversion fails. -/
def climate_target_temperature (data : Option (List Dict))
    (deviceId : String) : Except String (Option ℚ) := do
  let m ← climate_current_device_msg data deviceId
  let onTruthy := match primGet m "on" with
    | some v => truthyPrim v
    | none => false
  if onTruthy && (primGet m "t").isSome then
    Except.ok ((primGet m "t").bind pyFloat)
  else Except.ok none

/-- Python list index into the seven mode names of climate.py line 258. -/
def modeName (i : Nat) : Except String String :=
  match ["auto", "cool", "heat", "fan", "dry", "sleep", "eco"].get? i with
  | some s => Except.ok s
  | none => Except.error "IndexError"

/-- Result of running one adapter command handler: the coordinator state it
leaves behind, the (topic, message) pairs sent through control_device, and
whether coordinator listeners were notified. -/
structure AdapterResult where
  coord : CoordState
  sent : List (String × String)
  notifiedListeners : Bool
deriving DecidableEq, Repr

/-- BeHomeClimate.async_set_preset_mode (climate.py lines 244-259): look the
preset up in PRESET_TO_MODE and return at once when it is unknown; otherwise
apply the optimistic update with the deviceID and send the encoded set
command to the topic. -/
def climate_set_preset_mode (s : CoordState) (now : Int) (deviceId : String)
    (topic : String) (preset : String) : Except String AdapterResult :=
  match presetToMode preset with
  | none => Except.ok ⟨s, [], false⟩
  | some modeNum => do
    let t ← climate_target_temperature s.data deviceId
    let temp : ℚ := match t with
      | none => 25
      | some q => if q = 0 then 25 else q
    let r := update_device_state_immediately s now deviceId
      [("msg", Value.vobj
        [("on", Prim.pbool true), ("t", Prim.pint (pyTrunc temp)),
         ("mode", Prim.pint modeNum)])]
    let ms ← modeName (modeNum - 1).toNat
    Except.ok ⟨r.1,
      [(topic, "set," ++ toString (pyTrunc temp) ++ "," ++ ms ++ ",auto")],
      r.2⟩

end Adapters

section Lemmas

theorem dictGet_map_replace (l : Dict) (k : String) (v : Value)
    (h : l.any (fun p => p.1 = k) = true) :
    dictGet (l.map (fun p => if p.1 = k then (k, v) else p)) k = some v := by
  induction l with
  | nil => simp at h
  | cons p rest ih =>
    by_cases hk : p.1 = k
    · simp [dictGet, hk]
    · have h' : rest.any (fun p => p.1 = k) = true := by
        simpa [hk] using h
      simpa [dictGet, hk] using ih h'

theorem dictGet_append_single (l : Dict) (k : String) (v : Value)
    (h : l.any (fun p => p.1 = k) = false) :
    dictGet (l ++ [(k, v)]) k = some v := by
  induction l with
  | nil => simp [dictGet]
  | cons p rest ih =>
    have hk : ¬ p.1 = k := by
      intro he
      simp [he] at h
    have h' : rest.any (fun p => p.1 = k) = false := by
      simpa [hk] using h
    simpa [dictGet, hk] using ih h'

theorem dictGet_setKey_self (d : Dict) (k : String) (v : Value) :
    dictGet (setKey d k v) k = some v := by
  unfold setKey
  by_cases h : d.any (fun p => p.1 = k) = true
  · rw [if_pos h]
    exact dictGet_map_replace d k v h
  · rw [if_neg h]
    simp only [Bool.not_eq_true] at h
    exact dictGet_append_single d k v h

theorem dictGet_map_replace_ne (l : Dict) (k k' : String) (v : Value)
    (h : k' ≠ k) :
    dictGet (l.map (fun p => if p.1 = k then (k, v) else p)) k' =
      dictGet l k' := by
  induction l with
  | nil => simp [dictGet]
  | cons p rest ih =>
    by_cases hk : p.1 = k
    · have hne : ¬ (k = k') := fun he => h he.symm
      have hne2 : ¬ (p.1 = k') := by
        rw [hk]
        exact hne
      simp only [List.map_cons, dictGet, List.find?, hk, if_pos rfl]
      simp only [dictGet] at ih
      simpa [hne, hne2] using ih
    · simp only [List.map_cons, dictGet, List.find?, if_neg hk]
      by_cases hk' : p.1 = k'
      · simp [hk']
      · simp only [dictGet] at ih
        simpa [hk'] using ih

theorem dictGet_append_single_ne (l : Dict) (k k' : String) (v : Value)
    (h : k' ≠ k) :
    dictGet (l ++ [(k, v)]) k' = dictGet l k' := by
  induction l with
  | nil =>
    have hne : ¬ (k = k') := fun he => h he.symm
    simp [dictGet, List.find?, hne]
  | cons p rest ih =>
    by_cases hk' : p.1 = k'
    · simp [dictGet, hk']
    · simp only [dictGet] at ih
      simpa [dictGet, hk'] using ih

theorem dictGet_setKey_ne (d : Dict) (k k' : String) (v : Value)
    (h : k' ≠ k) :
    dictGet (setKey d k v) k' = dictGet d k' := by
  unfold setKey
  by_cases hc : d.any (fun p => p.1 = k) = true
  · rw [if_pos hc]
    exact dictGet_map_replace_ne d k k' v h
  · rw [if_neg hc]
    exact dictGet_append_single_ne d k k' v h

theorem mergeDevice_eq (old fresh : Dict) :
    mergeDevice old fresh =
      setKey (setKey fresh "msg" (pyGet old "msg")) "state"
        ((dictGet old "state").getD (pyGet fresh "state")) := rfl

theorem dictGet_mergeDevice_msg (old fresh : Dict) :
    dictGet (mergeDevice old fresh) "msg" = some (pyGet old "msg") := by
  rw [mergeDevice_eq, dictGet_setKey_ne _ _ _ _ (by decide),
    dictGet_setKey_self]

theorem dictGet_mergeDevice_state (old fresh : Dict) :
    dictGet (mergeDevice old fresh) "state" =
      some ((dictGet old "state").getD (pyGet fresh "state")) := by
  rw [mergeDevice_eq, dictGet_setKey_self]

theorem dictGet_mergeDevice_other (old fresh : Dict) (k : String)
    (h1 : k ≠ "msg") (h2 : k ≠ "state") :
    dictGet (mergeDevice old fresh) k = dictGet fresh k := by
  rw [mergeDevice_eq, dictGet_setKey_ne _ _ _ _ h2,
    dictGet_setKey_ne _ _ _ _ h1]

theorem length_updateFirst (l : List Dict) (tp : String) (ns : Dict) :
    (updateFirst l tp ns).length = l.length := by
  induction l with
  | nil => rfl
  | cons d rest ih =>
    by_cases h : topicIs d tp = true
    · simp [updateFirst, h]
    · simp [updateFirst, h, ih]

theorem updateFirst_ne_nil (l : List Dict) (tp : String) (ns : Dict)
    (h : l ≠ []) : updateFirst l tp ns ≠ [] := by
  intro hnil
  apply h
  have := length_updateFirst l tp ns
  rw [hnil] at this
  exact List.length_eq_zero.mp this.symm

theorem topicIs_dictUpdate_msg (d : Dict) (mv : Value) (tp : String) :
    topicIs (dictUpdate d [("msg", mv)]) tp = topicIs d tp := by
  have he : dictUpdate d [("msg", mv)] = setKey d "msg" mv := rfl
  rw [he]
  unfold topicIs
  rw [dictGet_setKey_ne _ _ _ _ (by decide)]

theorem firstWithTopic_updateFirst_msg (l : List Dict) (tp : String)
    (mv : Value) :
    firstWithTopic (updateFirst l tp [("msg", mv)]) tp =
      (firstWithTopic l tp).map (fun d => dictUpdate d [("msg", mv)]) := by
  induction l with
  | nil => simp [firstWithTopic, updateFirst]
  | cons d rest ih =>
    by_cases h : topicIs d tp = true
    · simp [updateFirst, h, firstWithTopic, List.find?_cons_of_pos,
        topicIs_dictUpdate_msg]
    · simp only [updateFirst, h, if_false, Bool.false_eq_true]
      simp only [firstWithTopic] at ih ⊢
      rw [List.find?_cons_of_neg _ (by simpa using h),
        List.find?_cons_of_neg _ (by simpa using h), ih]

theorem pyGet_dictUpdate_msg (d : Dict) (mv : Value) :
    pyGet (dictUpdate d [("msg", mv)]) "msg" = mv := by
  have he : dictUpdate d [("msg", mv)] = setKey d "msg" mv := rfl
  rw [he]
  unfold pyGet
  rw [dictGet_setKey_self]
  rfl

theorem mergeData_get? (olds fetched : List Dict)
    (locks : List (String × Int)) (i : Nat) (fresh old : Dict) (tp : String)
    (hfi : fetched[i]? = some fresh)
    (htp : dictGet fresh "topic" = some (Value.prim (Prim.pstr tp)))
    (hlk : lockHasKey locks tp = true)
    (hold : firstWithTopic olds tp = some old) :
    (mergeData olds locks fetched)[i]? = some (mergeDevice old fresh) := by
  unfold mergeData
  rw [List.getElem?_map, hfi]
  simp [htp, hlk, hold]

end Lemmas

section Claims

/-- Claim C10: when the coordinator holds no snapshot yet (data None or the
empty list), update_device_state_immediately is a complete no-op for every
argument: no lock entry is created, no device record is modified and
listeners are not notified. -/
theorem claim_c10_noop (s : CoordState) (now : Int) (tp : String) (ns : Dict)
    (h : s.data = none ∨ s.data = some []) :
    update_device_state_immediately s now tp ns = (s, false) := by
  obtain ⟨d, lk, lm⟩ := s
  rcases h with h | h <;> (dsimp only at h; subst h; rfl)

theorem claim_c10_noop_witness :
    update_device_state_immediately ⟨none, [], 0⟩ 5 "light002"
        [("msg", Value.vobj [("on", Prim.pbool true)])] =
      (⟨none, [], 0⟩, false) :=
  claim_c10_noop ⟨none, [], 0⟩ 5 "light002"
    [("msg", Value.vobj [("on", Prim.pbool true)])] (Or.inl rfl)

/-- Device record used for the claim C1 refutation. -/
def c1dev : Dict :=
  [("topic", Value.prim (Prim.pstr "light002")),
   ("deviceID", Value.prim (Prim.pstr "d1")),
   ("msg", Value.vobj [("on", Prim.pbool true)])]

/-- Claim C1 is false on the code: with a one-device snapshot, no cooldown
and a failed fetch (empty result), the refresh installs the empty list as
the new snapshot instead of retaining the prior one. -/
theorem claim_c1_counterexample :
    async_update_data ⟨some [c1dev], [], 0⟩ 100 [] = ⟨some [], [], 0⟩ ∧
    (⟨some [], [], 0⟩ : CoordState).data ≠
      (⟨some [c1dev], [], 0⟩ : CoordState).data := by
  decide

/-- Claim C1 (amended): on a failed fetch the previous snapshot is retained
only when the refresh falls inside the manual-refresh cooldown; otherwise
the empty fetch result replaces the snapshot and every device is dropped
(the override map is left untouched in both cases). -/
theorem claim_c1_amended (s : CoordState) (now : Int) :
    (now - s.lastManualRefresh < manualRefreshCooldown →
      async_update_data s now [] = s) ∧
    (manualRefreshCooldown ≤ now - s.lastManualRefresh →
      async_update_data s now [] = { s with data := some [] }) := by
  constructor
  · intro h
    unfold async_update_data
    rw [if_pos h]
  · intro h
    unfold async_update_data
    rw [if_neg (by omega), if_neg (by simp)]

theorem claim_c1_amended_witness :
    async_update_data ⟨some [c1dev], [], 95⟩ 100 [] =
      ⟨some [c1dev], [], 95⟩ ∧
    async_update_data ⟨some [c1dev], [], 7⟩ 100 [] = ⟨some [], [], 7⟩ := by
  constructor
  · exact (claim_c1_amended ⟨some [c1dev], [], 95⟩ 100).1 (by decide)
  · exact (claim_c1_amended ⟨some [c1dev], [], 7⟩ 100).2 (by decide)

/-- Device record used for the claim C2 refutation: its topic field
(fan002) differs from its deviceID field (42), which the data model
explicitly allows. -/
def c2dev : Dict :=
  [("topic", Value.prim (Prim.pstr "fan002")),
   ("deviceID", Value.prim (Prim.pstr "42")),
   ("msg", Value.vobj [("on", Prim.pbool false)])]

/-- Claim C2 evaluated at the failing input: the switch adapter passes its
deviceID (42) to update_device_state_immediately, which searches records
by their topic field (fan002).  No record matches, so the snapshot is
unchanged, the lock is filed under the never-matching key 42, and is_on
still reads false immediately after the optimistic turn-on, where the
claim requires true. -/
theorem claim_c2_code_divergence :
    (switch_turn_on_optimistic ⟨some [c2dev], [], 0⟩ 100 "42").1 =
      ⟨some [c2dev], [("42", 105)], 0⟩ ∧
    switch_is_on
        (switch_turn_on_optimistic ⟨some [c2dev], [], 0⟩ 100 "42").1.data
        "42" =
      Except.ok false := by
  decide

/-- Water-heater device used for the claim C8 refutation. -/
def c8wh : Dict :=
  [("id", Value.prim (Prim.pstr "waterheater")),
   ("deviceID", Value.prim (Prim.pstr "wh1")),
   ("topic", Value.prim (Prim.pstr "wh1topic"))]

/-- Switch device used for the claim C8 refutation. -/
def c8sw : Dict :=
  [("id", Value.prim (Prim.pstr "switch")),
   ("deviceID", Value.prim (Prim.pstr "sw1")),
   ("topic", Value.prim (Prim.pstr "sw1topic"))]

/-- Claim C8 evaluated at the failing input: the switch discovery pass is
idempotent (a second run with the seen set from the first creates no
entity), but the water-heater discovery pass keeps no seen set at all and
returns a new adapter for the same water-heater device on every
invocation, so a second pass over an unchanged device list duplicates the
adapter for deviceID wh1. -/
theorem claim_c8_code_divergence :
    discoverSwitchEntities (some [c8wh, c8sw]) [] =
      Except.ok ([c8sw], [Value.prim (Prim.pstr "sw1")]) ∧
    discoverSwitchEntities (some [c8wh, c8sw])
        [Value.prim (Prim.pstr "sw1")] =
      Except.ok ([], [Value.prim (Prim.pstr "sw1")]) ∧
    discoverWaterHeaterEntities (some [c8wh, c8sw]) = Except.ok [c8wh] ∧
    ([c8wh] : List Dict) ≠ [] := by
  decide

/-- Claim C5 is false on the code: a set command with three parts is not
mapped to the fallback payload on true; control_device sends
on true, v 5 instead. -/
theorem claim_c5_counterexample :
    encodeCommand "set,5,x" =
      Except.ok (Value.vobj [("on", Prim.pbool true), ("v", Prim.pint 5)]) ∧
    Value.vobj [("on", Prim.pbool true), ("v", Prim.pint 5)] ≠
      Value.vobj [("on", Prim.pbool true)] := by
  decide

/-- Claim C5 (amended): the encoding table of control_device, row by row,
with the corrected row for set commands whose part count is neither 2 nor
4 (they encode as on true with the v field, not as the bare fallback):
on/off, 2-part set, 4-part set over the whole mode table with unknown
modes defaulting to auto, other-arity set, speed, stop, the four
transport tokens, JSON passthrough, and the on-true fallback. -/
theorem claim_c5_amended :
    encodeCommand "on" = Except.ok (Value.vobj [("on", Prim.pbool true)]) ∧
    encodeCommand "off" = Except.ok (Value.vobj [("on", Prim.pbool false)]) ∧
    encodeCommand "set,80" =
      Except.ok (Value.vobj [("on", Prim.pbool true), ("bri", Prim.pint 80)]) ∧
    encodeCommand "set,0" =
      Except.ok (Value.vobj [("on", Prim.pbool true), ("bri", Prim.pint 0)]) ∧
    encodeCommand "set,25,auto,auto" =
      Except.ok (Value.vobj [("on", Prim.pbool true), ("t", Prim.pint 25),
        ("mode", Prim.pint 1)]) ∧
    encodeCommand "set,25,cool,auto" =
      Except.ok (Value.vobj [("on", Prim.pbool true), ("t", Prim.pint 25),
        ("mode", Prim.pint 2)]) ∧
    encodeCommand "set,25,heat,auto" =
      Except.ok (Value.vobj [("on", Prim.pbool true), ("t", Prim.pint 25),
        ("mode", Prim.pint 3)]) ∧
    encodeCommand "set,25,fan,auto" =
      Except.ok (Value.vobj [("on", Prim.pbool true), ("t", Prim.pint 25),
        ("mode", Prim.pint 4)]) ∧
    encodeCommand "set,25,dry,auto" =
      Except.ok (Value.vobj [("on", Prim.pbool true), ("t", Prim.pint 25),
        ("mode", Prim.pint 5)]) ∧
    encodeCommand "set,25,sleep,auto" =
      Except.ok (Value.vobj [("on", Prim.pbool true), ("t", Prim.pint 25),
        ("mode", Prim.pint 6)]) ∧
    encodeCommand "set,25,eco,auto" =
      Except.ok (Value.vobj [("on", Prim.pbool true), ("t", Prim.pint 25),
        ("mode", Prim.pint 7)]) ∧
    encodeCommand "set,25,xyz,auto" =
      Except.ok (Value.vobj [("on", Prim.pbool true), ("t", Prim.pint 25),
        ("mode", Prim.pint 1)]) ∧
    encodeCommand "set,5,x" =
      Except.ok (Value.vobj [("on", Prim.pbool true), ("v", Prim.pint 5)]) ∧
    encodeCommand "set,7,a,b,c" =
      Except.ok (Value.vobj [("on", Prim.pbool true), ("v", Prim.pint 7)]) ∧
    encodeCommand "speed,2" =
      Except.ok (Value.vobj [("on", Prim.pbool true), ("v", Prim.pint 2)]) ∧
    encodeCommand "stop" =
      Except.ok (Value.vobj [("pause", Prim.pbool true)]) ∧
    encodeCommand "volup" =
      Except.ok (Value.vobj [("command", Prim.pstr "volup")]) ∧
    encodeCommand "voldown" =
      Except.ok (Value.vobj [("command", Prim.pstr "voldown")]) ∧
    encodeCommand "chup" =
      Except.ok (Value.vobj [("command", Prim.pstr "chup")]) ∧
    encodeCommand "chdown" =
      Except.ok (Value.vobj [("command", Prim.pstr "chdown")]) ∧
    encodeCommand "\x7b\"custom\": 9\x7d" =
      Except.ok (Value.vobj [("custom", Prim.pint 9)]) ∧
    encodeCommand "123" = Except.ok (Value.prim (Prim.pint 123)) ∧
    encodeCommand "hello" = Except.ok (Value.vobj [("on", Prim.pbool true)]) ∧
    encodeCommand "pause" =
      Except.ok (Value.vobj [("on", Prim.pbool true)]) := by
  decide

/-- Claim C9: an unsupported preset mode (anything other than sleep or
eco) is rejected by BeHomeClimate.async_set_preset_mode before any effect:
no command is sent, the coordinator state is untouched and listeners are
not notified. -/
theorem claim_c9_reject_preset (s : CoordState) (now : Int)
    (deviceId topic preset : String)
    (h1 : preset ≠ "sleep") (h2 : preset ≠ "eco") :
    climate_set_preset_mode s now deviceId topic preset =
      Except.ok ⟨s, [], false⟩ := by
  have e1 : ¬ ((("sleep" : String), (6 : Int)).1 = preset) :=
    fun he => h1 he.symm
  have e2 : ¬ ((("eco" : String), (7 : Int)).1 = preset) :=
    fun he => h2 he.symm
  unfold climate_set_preset_mode presetToMode PRESET_TO_MODE
  rw [List.find?_cons_of_neg _ (by simpa using e1),
    List.find?_cons_of_neg _ (by simpa using e2)]
  rfl

theorem claim_c9_reject_preset_witness :
    climate_set_preset_mode ⟨none, [], 0⟩ 7 "d1" "t1" "boost" =
      Except.ok ⟨⟨none, [], 0⟩, [], false⟩ :=
  claim_c9_reject_preset ⟨none, [], 0⟩ 7 "d1" "t1" "boost"
    (by decide) (by decide)

end Claims

/-- Claim C3: after a user-initiated delayed refresh fires at time tm, any
refresh cycle starting at time t with t - tm under the 8-second cooldown is
skipped and leaves the coordinator state (snapshot included) unchanged;
a refresh starting once the cooldown has elapsed is not skipped, installs
the full fetch result, and clears every override whose lock has expired by
then (in particular the regular poll at t = 60 after a manual refresh at
t = 3 with a lock that ended at t = 8). -/
theorem claim_c3_cooldown (s : CoordState) (tm t : Int)
    (fetched : List Dict) :
    (t - tm < manualRefreshCooldown →
      async_update_data (delayed_refresh_fired s tm) t fetched =
        delayed_refresh_fired s tm) ∧
    (manualRefreshCooldown ≤ t - tm →
      (∀ p ∈ s.lockedDevices, p.2 ≤ t) →
      fetched ≠ [] →
      async_update_data (delayed_refresh_fired s tm) t fetched =
        ⟨some fetched, [], tm⟩) := by
  constructor
  · intro h
    unfold async_update_data delayed_refresh_fired
    dsimp only
    rw [if_pos h]
  · intro h hexp hf
    have hsweep : sweepLocks s.lockedDevices t = [] := by
      unfold sweepLocks
      rw [List.filter_eq_nil_iff]
      intro p hp
      have := hexp p hp
      simp only [decide_eq_true_eq]
      omega
    unfold async_update_data delayed_refresh_fired
    dsimp only
    rw [if_neg (by omega)]
    by_cases hl : s.lockedDevices = []
    · rw [if_neg (by simp [hl])]
      rw [hl]
    · rw [if_pos ⟨hl, hf⟩, if_neg (by simp [hsweep]), hsweep]

/-- Devices used for the claim C3 witness. -/
def c3oldDev : Dict :=
  [("topic", Value.prim (Prim.pstr "sw1")),
   ("msg", Value.vobj [("on", Prim.pbool true)])]

/-- Fresh fetch result used for the claim C3 witness. -/
def c3newDev : Dict :=
  [("topic", Value.prim (Prim.pstr "sw1")),
   ("msg", Value.vobj [("on", Prim.pbool false)])]

theorem claim_c3_cooldown_witness :
    async_update_data
        (delayed_refresh_fired ⟨some [c3oldDev], [("sw1", 8)], 0⟩ 3) 5
        [c3newDev] =
      delayed_refresh_fired ⟨some [c3oldDev], [("sw1", 8)], 0⟩ 3 ∧
    async_update_data
        (delayed_refresh_fired ⟨some [c3oldDev], [("sw1", 8)], 0⟩ 3) 60
        [c3newDev] =
      ⟨some [c3newDev], [], 3⟩ := by
  constructor
  · exact (claim_c3_cooldown ⟨some [c3oldDev], [("sw1", 8)], 0⟩ 3 5
      [c3newDev]).1 (by decide)
  · exact (claim_c3_cooldown ⟨some [c3oldDev], [("sw1", 8)], 0⟩ 3 60
      [c3newDev]).2 (by decide) (by decide) (by decide)

/-- Claim C6 is false on the code: control_device raises an uncaught
ValueError from int() while encoding the message set,abc, before any
network interaction; it does not return a boolean. -/
theorem claim_c6_counterexample :
    control_device "set,abc" NetResult.transportError =
      Except.error "ValueError" := by
  decide

/-- Claim C6 (amended): for every topic and device type, control_device
returns a boolean without raising provided the numeric part of a set or
speed message parses as an integer (only the int() calls in those two
branches can raise); every network or response-parsing failure collapses
to a false return. -/
theorem claim_c6_amended (message : String) (net : NetResult)
    (h1 : pyStartsWith message "set," = true →
      (pyInt ((pySplitComma message).getD 1 "")).isSome = true)
    (h2 : pyStartsWith message "speed," = true →
      (pyInt ((pySplitComma message).getD 1 "")).isSome = true) :
    (∃ b, control_device message net = Except.ok b) ∧
    ((net = NetResult.transportError ∨ net = NetResult.responseError) →
      control_device message net = Except.ok false) := by
  have henc : ∃ v, encodeCommand message = Except.ok v := by
    unfold encodeCommand
    by_cases hon : message = "on"
    · rw [if_pos hon]
      exact ⟨_, rfl⟩
    · rw [if_neg hon]
      by_cases hoff : message = "off"
      · rw [if_pos hoff]
        exact ⟨_, rfl⟩
      · rw [if_neg hoff]
        by_cases hset : pyStartsWith message "set," = true
        · rw [if_pos hset]
          obtain ⟨n, hn⟩ := Option.isSome_iff_exists.mp (h1 hset)
          rw [hn]
          dsimp only
          split
          · exact ⟨_, rfl⟩
          · split
            · exact ⟨_, rfl⟩
            · exact ⟨_, rfl⟩
        · rw [if_neg hset]
          by_cases hspeed : pyStartsWith message "speed," = true
          · rw [if_pos hspeed]
            obtain ⟨n, hn⟩ := Option.isSome_iff_exists.mp (h2 hspeed)
            rw [hn]
            exact ⟨_, rfl⟩
          · rw [if_neg hspeed]
            cases hj : jsonLoads message with
            | some v => exact ⟨_, rfl⟩
            | none =>
              dsimp only
              split
              · exact ⟨_, rfl⟩
              · split
                · exact ⟨_, rfl⟩
                · exact ⟨_, rfl⟩
  obtain ⟨v, hv⟩ := henc
  constructor
  · cases net with
    | transportError => exact ⟨false, by simp [control_device, hv]⟩
    | responseError => exact ⟨false, by simp [control_device, hv]⟩
    | code c => exact ⟨decide (c = 0), by simp [control_device, hv]⟩
  · intro hnet
    rcases hnet with rfl | rfl <;> simp [control_device, hv]

theorem claim_c6_amended_witness :
    (∃ b, control_device "set,21,heat,auto" NetResult.transportError =
      Except.ok b) ∧
    control_device "set,21,heat,auto" NetResult.transportError =
      Except.ok false :=
  have h := claim_c6_amended "set,21,heat,auto" NetResult.transportError
    (by decide) (by decide)
  ⟨h.1, h.2 (Or.inl rfl)⟩

/-- Cached device record used for the claim C4 refutation. -/
def c4old : Dict :=
  [("topic", Value.prim (Prim.pstr "t1")),
   ("deviceID", Value.prim (Prim.pstr "d1")),
   ("state", Value.prim (Prim.pstr "off")),
   ("msg", Value.vobj [("on", Prim.pbool false), ("bri", Prim.pint 30)])]

/-- Freshly fetched record used for the claim C4 refutation. -/
def c4fresh : Dict :=
  [("topic", Value.prim (Prim.pstr "t1")),
   ("deviceID", Value.prim (Prim.pstr "d1")),
   ("state", Value.prim (Prim.pstr "opening")),
   ("msg", Value.vobj [("on", Prim.pbool false), ("bri", Prim.pint 55)])]

/-- Record the claim C4 refutation run actually produces. -/
def c4merged : Dict :=
  [("topic", Value.prim (Prim.pstr "t1")),
   ("deviceID", Value.prim (Prim.pstr "d1")),
   ("state", Value.prim (Prim.pstr "off")),
   ("msg", Value.vobj [("on", Prim.pbool true)])]

/-- Claim C4 is false on the code: the optimistic update set only msg.on,
yet the refresh merge clobbers the freshly fetched state field (opening
becomes off) and drops the freshly fetched msg.bri value 55, because the
merge copies the entire old msg and state rather than only the overridden
fields. -/
theorem claim_c4_counterexample :
    (async_update_data
        (update_device_state_immediately ⟨some [c4old], [], 0⟩ 100 "t1"
          [("msg", Value.vobj [("on", Prim.pbool true)])]).1
        103 [c4fresh]).data = some [c4merged] ∧
    dictGet c4fresh "state" = some (Value.prim (Prim.pstr "opening")) ∧
    dictGet c4merged "state" = some (Value.prim (Prim.pstr "off")) ∧
    dictGet c4fresh "msg" =
      some (Value.vobj [("on", Prim.pbool false), ("bri", Prim.pint 55)]) ∧
    dictGet c4merged "msg" = some (Value.vobj [("on", Prim.pbool true)]) := by
  decide

/-- Claim C4 (amended): when a refresh merges a live override into the
freshly fetched record of a device, it overwrites the record's entire msg
field with the cached msg (the one left behind by the last optimistic
update) and its entire state field with the cached state (falling back to
the fetched state only when the cached record lacks one); every top-level
field other than msg and state keeps its freshly fetched value.  Fetched
sub-fields inside msg are not preserved. -/
theorem claim_c4_amended (dta fetched : List Dict)
    (locks0 : List (String × Int)) (last now : Int) (i : Nat)
    (fresh old : Dict) (tp : String)
    (hcool : ¬ (now - last < manualRefreshCooldown))
    (hlocks0 : locks0 ≠ []) (hfetched : fetched ≠ []) (hdta : dta ≠ [])
    (hlive : lockHasKey (sweepLocks locks0 now) tp = true)
    (hfreshi : fetched[i]? = some fresh)
    (htp : dictGet fresh "topic" = some (Value.prim (Prim.pstr tp)))
    (hold : firstWithTopic dta tp = some old) :
    (async_update_data ⟨some dta, locks0, last⟩ now fetched).data =
      some (mergeData dta (sweepLocks locks0 now) fetched) ∧
    (mergeData dta (sweepLocks locks0 now) fetched)[i]? =
      some (mergeDevice old fresh) ∧
    dictGet (mergeDevice old fresh) "msg" = some (pyGet old "msg") ∧
    dictGet (mergeDevice old fresh) "state" =
      some ((dictGet old "state").getD (pyGet fresh "state")) ∧
    ∀ k, k ≠ "msg" → k ≠ "state" →
      dictGet (mergeDevice old fresh) k = dictGet fresh k := by
  have hsw : sweepLocks locks0 now ≠ [] := by
    intro hnil
    rw [hnil] at hlive
    simp [lockHasKey] at hlive
  have hdt : dataTruthy (some dta) = true := by
    cases dta with
    | nil => exact absurd rfl hdta
    | cons a b => rfl
  refine ⟨?_, ?_, dictGet_mergeDevice_msg old fresh,
    dictGet_mergeDevice_state old fresh,
    fun k h1 h2 => dictGet_mergeDevice_other old fresh k h1 h2⟩
  · unfold async_update_data
    dsimp only
    rw [if_neg hcool, if_pos ⟨hlocks0, hfetched⟩, if_pos ⟨hdt, hsw⟩]
    rfl
  · exact mergeData_get? dta fetched (sweepLocks locks0 now) i fresh old tp
      hfreshi htp hlive hold

/-- Cached record for the claim C4 amended witness. -/
def c4wold : Dict :=
  [("topic", Value.prim (Prim.pstr "t1")),
   ("state", Value.prim (Prim.pstr "off")),
   ("msg", Value.vobj [("on", Prim.pbool true)])]

/-- Fetched record for the claim C4 amended witness. -/
def c4wfresh : Dict :=
  [("topic", Value.prim (Prim.pstr "t1")),
   ("num", Value.prim (Prim.pbool true)),
   ("state", Value.prim (Prim.pstr "opening")),
   ("msg", Value.vobj [("on", Prim.pbool false), ("bri", Prim.pint 55)])]

theorem claim_c4_amended_witness :
    (async_update_data ⟨some [c4wold], [("t1", 105)], 0⟩ 103
        [c4wfresh]).data =
      some (mergeData [c4wold] (sweepLocks [("t1", 105)] 103) [c4wfresh]) ∧
    (mergeData [c4wold] (sweepLocks [("t1", 105)] 103) [c4wfresh])[0]? =
      some (mergeDevice c4wold c4wfresh) ∧
    dictGet (mergeDevice c4wold c4wfresh) "msg" =
      some (pyGet c4wold "msg") ∧
    dictGet (mergeDevice c4wold c4wfresh) "state" =
      some ((dictGet c4wold "state").getD (pyGet c4wfresh "state")) ∧
    dictGet (mergeDevice c4wold c4wfresh) "num" = dictGet c4wfresh "num" :=
  have h := claim_c4_amended [c4wold] [c4wfresh] [("t1", 105)] 0 103 0
    c4wfresh c4wold "t1" (by decide) (by decide) (by decide) (by decide)
    (by decide) (by decide) (by decide) (by decide)
  ⟨h.1, h.2.1, h.2.2.1, h.2.2.2.1, h.2.2.2.2 "num" (by decide) (by decide)⟩

/-- Claim C7: an override lock lasts exactly deviceLockDuration seconds.
Starting from a snapshot with no locks, after an optimistic update of the
msg field at time tSet, a refresh at a time before tSet + 5 keeps the
overridden msg against the competing fetched value, while a refresh at or
after tSet + 5 removes the override entry and installs the freshly fetched
records unchanged. -/
theorem claim_c7_lock_window (dta fetched : List Dict) (last tSet now : Int)
    (tp : String) (mv : Value) (i : Nat) (fresh old : Dict)
    (hdta : dta ≠ [])
    (hold : firstWithTopic dta tp = some old)
    (hcool : ¬ (now - last < manualRefreshCooldown))
    (hfetched : fetched ≠ []) :
    (now < tSet + deviceLockDuration →
      fetched[i]? = some fresh →
      dictGet fresh "topic" = some (Value.prim (Prim.pstr tp)) →
      dictGet
          ((((async_update_data
              (update_device_state_immediately ⟨some dta, [], last⟩ tSet tp
                [("msg", mv)]).1 now fetched).data.getD [])[i]?).getD [])
          "msg" = some mv) ∧
    (tSet + deviceLockDuration ≤ now →
      async_update_data
          (update_device_state_immediately ⟨some dta, [], last⟩ tSet tp
            [("msg", mv)]).1 now fetched =
        ⟨some fetched, [], last⟩) := by
  have hs1 : (update_device_state_immediately ⟨some dta, [], last⟩ tSet tp
      [("msg", mv)]).1 =
      ⟨some (updateFirst dta tp [("msg", mv)]),
       [(tp, tSet + deviceLockDuration)], last⟩ := by
    cases dta with
    | nil => exact absurd rfl hdta
    | cons d rest => rfl
  constructor
  · intro hlt hfi htp
    rw [hs1]
    have hkeep : sweepLocks [(tp, tSet + deviceLockDuration)] now =
        [(tp, tSet + deviceLockDuration)] := by
      simp [sweepLocks, hlt]
    have hupd : updateFirst dta tp [("msg", mv)] ≠ [] :=
      updateFirst_ne_nil dta tp _ hdta
    have hdt : dataTruthy (some (updateFirst dta tp [("msg", mv)])) =
        true := by
      cases h : updateFirst dta tp [("msg", mv)] with
      | nil => exact absurd h hupd
      | cons a b => simp [dataTruthy]
    have hfirst : firstWithTopic (updateFirst dta tp [("msg", mv)]) tp =
        some (dictUpdate old [("msg", mv)]) := by
      rw [firstWithTopic_updateFirst_msg, hold]
      rfl
    have hmg := mergeData_get? (updateFirst dta tp [("msg", mv)]) fetched
      [(tp, tSet + deviceLockDuration)] i fresh
      (dictUpdate old [("msg", mv)]) tp hfi htp (by simp [lockHasKey])
      hfirst
    unfold async_update_data
    dsimp only
    rw [if_neg hcool, if_pos ⟨by simp, hfetched⟩,
      if_pos ⟨hdt, by rw [hkeep]; simp⟩]
    simp only [Option.getD_some]
    rw [hkeep, hmg, Option.getD_some, dictGet_mergeDevice_msg,
      pyGet_dictUpdate_msg]
  · intro hge
    rw [hs1]
    have hdrop : sweepLocks [(tp, tSet + deviceLockDuration)] now = [] := by
      simp [sweepLocks]
      omega
    unfold async_update_data
    dsimp only
    rw [if_neg hcool, if_pos ⟨by simp, hfetched⟩,
      if_neg (by simp [hdrop]), hdrop]

/-- Cached record for the claim C7 witness. -/
def c7old : Dict :=
  [("topic", Value.prim (Prim.pstr "ac1")),
   ("msg", Value.vobj [("on", Prim.pbool false)])]

/-- Fetched record for the claim C7 witness: the cloud still reports the
competing value off. -/
def c7fresh : Dict :=
  [("topic", Value.prim (Prim.pstr "ac1")),
   ("msg", Value.vobj [("on", Prim.pbool false)])]

theorem claim_c7_lock_window_witness :
    dictGet
        ((((async_update_data
            (update_device_state_immediately ⟨some [c7old], [], 0⟩ 100 "ac1"
              [("msg", Value.vobj [("on", Prim.pbool true)])]).1 103
            [c7fresh]).data.getD [])[0]?).getD []) "msg" =
      some (Value.vobj [("on", Prim.pbool true)]) ∧
    async_update_data
        (update_device_state_immediately ⟨some [c7old], [], 0⟩ 100 "ac1"
          [("msg", Value.vobj [("on", Prim.pbool true)])]).1 106 [c7fresh] =
      ⟨some [c7fresh], [], 0⟩ := by
  constructor
  · exact (claim_c7_lock_window [c7old] [c7fresh] 0 100 103 "ac1"
      (Value.vobj [("on", Prim.pbool true)]) 0 c7fresh c7old
      (by decide) (by decide) (by decide) (by decide)).1
      (by decide) (by decide) (by decide)
  · exact (claim_c7_lock_window [c7old] [c7fresh] 0 100 106 "ac1"
      (Value.vobj [("on", Prim.pbool true)]) 0 c7fresh c7old
      (by decide) (by decide) (by decide) (by decide)).2 (by decide)
